import Mathlib

/-!
Verification of the data-access layer in `src/state/api.ts` together with the
storage schema in `supabase/migrations/20251028215138_create_inventory_management_schema.sql`.

The TypeScript module defines five request handlers over a hosted relational
backend.  We embed:

  * the stored rows of each table (snake_case columns, as created by the SQL
    migration; the audit columns `created_at` and `updated_at` are never read
    by any handler and are omitted from the row model),
  * the camelCase view models (the `interface` declarations of `api.ts`,
    including the misspelled field `expenseSummarId` of `ExpenseSummary`),
  * the per-row mapping functions (the object literals inside each handler),
  * the backend query semantics used by the handlers: unordered scans,
    Postgres ILIKE filtering (with percent and underscore wildcards and
    backslash escapes, both sides lowercased), ORDER BY (as a sort by the
    ordering key) and LIMIT (as a take),
  * the error path: each handler catches any backend error and returns the
    envelope object `{ status: 500, data: error.message }`,
  * the insert path of `createProduct` with the CHECK constraints of the
    `products` table (price nonnegative, rating between 0 and 5, stock
    quantity nonnegative).

Numeric columns are modelled as rationals, the integer column
`stock_quantity` as an integer, text and date columns as strings.
-/

/-- A backend (supabase/Postgres) error: the handlers only ever read its
`message` field. -/
structure SbError where
  message : String
deriving DecidableEq

/-- The error envelope built in every catch block of `api.ts`:
`return { error: { status: 500, data: error.message } }`. -/
structure ApiError where
  status : Nat
  data : String
deriving DecidableEq

/-- A handler outcome: either the typed success payload or the error
envelope. -/
abbrev QueryResult (α : Type) := Except ApiError α

/-! ### Stored rows (snake_case, from the SQL schema) -/

/-- A row of the `products` table. -/
structure ProductRow where
  product_id : String
  name : String
  price : Rat
  rating : Option Rat
  stock_quantity : Int
deriving DecidableEq

/-- A row of the `users` table. -/
structure UserRow where
  user_id : String
  name : String
  email : String
deriving DecidableEq

/-- A row of the `sales_summary` table. -/
structure SalesSummaryRow where
  sales_summary_id : String
  total_value : Rat
  change_percentage : Option Rat
  date : String
deriving DecidableEq

/-- A row of the `purchase_summary` table. -/
structure PurchaseSummaryRow where
  purchase_summary_id : String
  total_purchased : Rat
  change_percentage : Option Rat
  date : String
deriving DecidableEq

/-- A row of the `expense_summary` table. -/
structure ExpenseSummaryRow where
  expense_summary_id : String
  total_expenses : Rat
  date : String
deriving DecidableEq

/-- A row of the `expense_by_category` table. -/
structure ExpenseByCategoryRow where
  expense_by_category_id : String
  category : String
  amount : Rat
  date : String
deriving DecidableEq

/-- The whole backing store. -/
structure DB where
  products : List ProductRow
  users : List UserRow
  sales_summary : List SalesSummaryRow
  purchase_summary : List PurchaseSummaryRow
  expense_summary : List ExpenseSummaryRow
  expense_by_category : List ExpenseByCategoryRow
deriving DecidableEq

/-! ### View models (camelCase, the interfaces of `api.ts`) -/

/-- `interface Product` of `api.ts`. -/
structure Product where
  productId : String
  name : String
  price : Rat
  rating : Option Rat
  stockQuantity : Int
deriving DecidableEq

/-- `interface NewProduct` of `api.ts` (the `createProduct` input). -/
structure NewProduct where
  name : String
  price : Rat
  rating : Option Rat
  stockQuantity : Int
deriving DecidableEq

/-- `interface SalesSummary` of `api.ts`. -/
structure SalesSummary where
  salesSummaryId : String
  totalValue : Rat
  changePercentage : Option Rat
  date : String
deriving DecidableEq

/-- `interface PurchaseSummary` of `api.ts`. -/
structure PurchaseSummary where
  purchaseSummaryId : String
  totalPurchased : Rat
  changePercentage : Option Rat
  date : String
deriving DecidableEq

/-- `interface ExpenseSummary` of `api.ts`.  The first field is spelled
`expenseSummarId` in the source (line 34), not `expenseSummaryId`. -/
structure ExpenseSummary where
  expenseSummarId : String
  totalExpenses : Rat
  date : String
deriving DecidableEq

/-- `interface ExpenseByCategorySummary` of `api.ts`: the amount is a
string in the view model. -/
structure ExpenseByCategorySummary where
  expenseByCategorySummaryId : String
  category : String
  amount : String
  date : String
deriving DecidableEq

/-- `interface User` of `api.ts`. -/
structure User where
  userId : String
  name : String
  email : String
deriving DecidableEq

/-- `interface DashboardMetrics` of `api.ts`. -/
structure DashboardMetrics where
  popularProducts : List Product
  salesSummary : List SalesSummary
  purchaseSummary : List PurchaseSummary
  expenseSummary : List ExpenseSummary
  expenseByCategorySummary : List ExpenseByCategorySummary
deriving DecidableEq

/-! ### Row-to-view-model mappings (the object literals in `api.ts`) -/

/-- The JavaScript `Number.prototype.toString` rendering used for the
`amount` column: integral rationals print as integers. -/
def jsNumToString (q : Rat) : String :=
  if q.den = 1 then toString q.num else toString q

/-- The product arrow function of `getProducts`, `getDashboardMetrics` and
`createProduct`. -/
def mapProductRow (p : ProductRow) : Product :=
  { productId := p.product_id
    name := p.name
    price := p.price
    rating := p.rating
    stockQuantity := p.stock_quantity }

/-- The sales-summary arrow function of `getDashboardMetrics`. -/
def mapSalesSummaryRow (s : SalesSummaryRow) : SalesSummary :=
  { salesSummaryId := s.sales_summary_id
    totalValue := s.total_value
    changePercentage := s.change_percentage
    date := s.date }

/-- The purchase-summary arrow function of `getDashboardMetrics`. -/
def mapPurchaseSummaryRow (p : PurchaseSummaryRow) : PurchaseSummary :=
  { purchaseSummaryId := p.purchase_summary_id
    totalPurchased := p.total_purchased
    changePercentage := p.change_percentage
    date := p.date }

/-- The expense-summary arrow function of `getDashboardMetrics` (line 104
of `api.ts` assigns `e.expense_summary_id` to the key `expenseSummarId`). -/
def mapExpenseSummaryRow (e : ExpenseSummaryRow) : ExpenseSummary :=
  { expenseSummarId := e.expense_summary_id
    totalExpenses := e.total_expenses
    date := e.date }

/-- The expense-by-category arrow function of `getDashboardMetrics` and
`getExpensesByCategory`: the stored column `expense_by_category_id` is
assigned to the key `expenseByCategorySummaryId`, and the numeric amount is
rendered with `toString`. -/
def mapExpenseByCategoryRow (e : ExpenseByCategoryRow) : ExpenseByCategorySummary :=
  { expenseByCategorySummaryId := e.expense_by_category_id
    category := e.category
    amount := jsNumToString e.amount
    date := e.date }

/-- The user arrow function of `getUsers`. -/
def mapUserRow (u : UserRow) : User :=
  { userId := u.user_id
    name := u.name
    email := u.email }

/-! ### Postgres ILIKE semantics

`getProducts` builds the pattern by plain string interpolation,
`query.ilike("name", `%${search}%`)`.  Postgres LIKE patterns treat percent
as "any sequence of characters", underscore as "any single character" and
backslash as an escape; ILIKE compares case-insensitively, which we model by
lowercasing both the pattern and the target.  The pattern is first compiled
to a token list, then matched. -/

/-- One token of a compiled LIKE pattern: the percent wildcard, the
underscore wildcard, or a literal character. -/
inductive LikeTok where
  | any : LikeTok
  | one : LikeTok
  | lit : Char → LikeTok
deriving DecidableEq

/-- Compile a LIKE pattern: percent and underscore become wildcards, a
backslash escapes the following character.  (A trailing lone backslash
cannot arise from the handler, whose pattern always ends with a percent;
we compile it to a literal backslash.) -/
def compileLike : List Char → List LikeTok
  | [] => []
  | c :: ps =>
    if c = '%' then LikeTok.any :: compileLike ps
    else if c = '_' then LikeTok.one :: compileLike ps
    else if c = '\\' then
      match ps with
      | [] => [LikeTok.lit '\\']
      | d :: ps2 => LikeTok.lit d :: compileLike ps2
    else LikeTok.lit c :: compileLike ps

/-- Match a compiled LIKE pattern against a character list.  The percent
wildcard matches when some suffix of the target matches the rest of the
pattern. -/
def tokMatches : List LikeTok → List Char → Bool
  | [], s => s.isEmpty
  | LikeTok.any :: ps, s => s.tails.any fun t => tokMatches ps t
  | LikeTok.one :: ps, s =>
    match s with
    | [] => false
    | _ :: s2 => tokMatches ps s2
  | LikeTok.lit c :: ps, s =>
    match s with
    | [] => false
    | d :: s2 => c == d && tokMatches ps s2

/-- The characters of a string, lowercased (ILIKE comparison). -/
def lowerChars (s : String) : List Char :=
  s.data.map Char.toLower

/-- Postgres `target ILIKE pat`. -/
def ilike (pat tgt : String) : Bool :=
  tokMatches (compileLike (lowerChars pat)) (lowerChars tgt)

/-! ### Backend query semantics used by the handlers -/

/-- Ascending ORDER BY an extracted key. -/
def byKeyAsc {α β : Type} [LinearOrder β] (f : α → β) (a b : α) : Prop :=
  f a ≤ f b

/-- Descending ORDER BY an extracted key. -/
def byKeyDesc {α β : Type} [LinearOrder β] (f : α → β) (a b : α) : Prop :=
  f b ≤ f a

instance {α β : Type} [LinearOrder β] (f : α → β) : DecidableRel (byKeyAsc f) :=
  fun a b => inferInstanceAs (Decidable (f a ≤ f b))

instance {α β : Type} [LinearOrder β] (f : α → β) : DecidableRel (byKeyDesc f) :=
  fun a b => inferInstanceAs (Decidable (f b ≤ f a))

instance {α β : Type} [LinearOrder β] (f : α → β) : IsTotal α (byKeyAsc f) :=
  ⟨fun a b => le_total (f a) (f b)⟩

instance {α β : Type} [LinearOrder β] (f : α → β) : IsTotal α (byKeyDesc f) :=
  ⟨fun a b => le_total (f b) (f a)⟩

instance {α β : Type} [LinearOrder β] (f : α → β) : IsTrans α (byKeyAsc f) :=
  ⟨fun _ _ _ h1 h2 => le_trans h1 h2⟩

instance {α β : Type} [LinearOrder β] (f : α → β) : IsTrans α (byKeyDesc f) :=
  ⟨fun _ _ _ h1 h2 => le_trans h2 h1⟩

/-- The `products` read of `getProducts`: `select("*")`, with the ILIKE
name filter exactly when the search argument is truthy (present and
non-empty, since the empty string is falsy in JavaScript). -/
def productsQuery (db : DB) (search : Option String) : List ProductRow :=
  match search with
  | none => db.products
  | some s =>
    if s = "" then db.products
    else db.products.filter fun r => ilike ("%" ++ s ++ "%") r.name

/-- The `products` read of `getDashboardMetrics`:
`order("stock_quantity", { ascending: false }).limit(5)`. -/
def dashboardProductsQuery (db : DB) : List ProductRow :=
  (List.insertionSort (byKeyDesc ProductRow.stock_quantity) db.products).take 5

/-- The `sales_summary` read: `order("date", { ascending: true })`. -/
def salesSummaryQuery (db : DB) : List SalesSummaryRow :=
  List.insertionSort (byKeyAsc SalesSummaryRow.date) db.sales_summary

/-- The `purchase_summary` read: `order("date", { ascending: true })`. -/
def purchaseSummaryQuery (db : DB) : List PurchaseSummaryRow :=
  List.insertionSort (byKeyAsc PurchaseSummaryRow.date) db.purchase_summary

/-- The `expense_summary` read: `order("date", { ascending: true })`. -/
def expenseSummaryQuery (db : DB) : List ExpenseSummaryRow :=
  List.insertionSort (byKeyAsc ExpenseSummaryRow.date) db.expense_summary

/-- The `expense_by_category` read: `order("amount", { ascending: false })`. -/
def expenseByCategoryQuery (db : DB) : List ExpenseByCategoryRow :=
  List.insertionSort (byKeyDesc ExpenseByCategoryRow.amount) db.expense_by_category

/-! ### The five handlers -/

/-- The `getDashboardMetrics` handler, as a function of the five backend
responses returned by `Promise.all`.  The error checks happen in source
order (products, sales, purchases, expense summary, expense by category);
the first response carrying an error is thrown and caught, producing the
envelope, and all sibling data is discarded. -/
def getDashboardMetrics
    (products : Except SbError (List ProductRow))
    (salesSummary : Except SbError (List SalesSummaryRow))
    (purchaseSummary : Except SbError (List PurchaseSummaryRow))
    (expenseSummary : Except SbError (List ExpenseSummaryRow))
    (expenseByCategory : Except SbError (List ExpenseByCategoryRow)) :
    QueryResult DashboardMetrics :=
  match products with
  | Except.error e => Except.error { status := 500, data := e.message }
  | Except.ok productRows =>
  match salesSummary with
  | Except.error e => Except.error { status := 500, data := e.message }
  | Except.ok salesRows =>
  match purchaseSummary with
  | Except.error e => Except.error { status := 500, data := e.message }
  | Except.ok purchaseRows =>
  match expenseSummary with
  | Except.error e => Except.error { status := 500, data := e.message }
  | Except.ok expenseRows =>
  match expenseByCategory with
  | Except.error e => Except.error { status := 500, data := e.message }
  | Except.ok expenseByCategoryRows =>
  Except.ok
    { popularProducts := productRows.map mapProductRow
      salesSummary := salesRows.map mapSalesSummaryRow
      purchaseSummary := purchaseRows.map mapPurchaseSummaryRow
      expenseSummary := expenseRows.map mapExpenseSummaryRow
      expenseByCategorySummary := expenseByCategoryRows.map mapExpenseByCategoryRow }

/-- `getDashboardMetrics` against a healthy backend serving `db`. -/
def getDashboardMetricsOk (db : DB) : QueryResult DashboardMetrics :=
  getDashboardMetrics
    (Except.ok (dashboardProductsQuery db))
    (Except.ok (salesSummaryQuery db))
    (Except.ok (purchaseSummaryQuery db))
    (Except.ok (expenseSummaryQuery db))
    (Except.ok (expenseByCategoryQuery db))

/-- The composite object assembled on the success path. -/
def dashboardData (db : DB) : DashboardMetrics :=
  { popularProducts := (dashboardProductsQuery db).map mapProductRow
    salesSummary := (salesSummaryQuery db).map mapSalesSummaryRow
    purchaseSummary := (purchaseSummaryQuery db).map mapPurchaseSummaryRow
    expenseSummary := (expenseSummaryQuery db).map mapExpenseSummaryRow
    expenseByCategorySummary := (expenseByCategoryQuery db).map mapExpenseByCategoryRow }

/-- The `getProducts` handler as a function of the backend response. -/
def getProductsRes (resp : Except SbError (List ProductRow)) : QueryResult (List Product) :=
  match resp with
  | Except.error e => Except.error { status := 500, data := e.message }
  | Except.ok rows => Except.ok (rows.map mapProductRow)

/-- `getProducts` against a healthy backend serving `db`. -/
def getProducts (db : DB) (search : Option String) : QueryResult (List Product) :=
  getProductsRes (Except.ok (productsQuery db search))

/-- The `getUsers` handler as a function of the backend response. -/
def getUsersRes (resp : Except SbError (List UserRow)) : QueryResult (List User) :=
  match resp with
  | Except.error e => Except.error { status := 500, data := e.message }
  | Except.ok rows => Except.ok (rows.map mapUserRow)

/-- `getUsers` against a healthy backend serving `db`. -/
def getUsers (db : DB) : QueryResult (List User) :=
  getUsersRes (Except.ok db.users)

/-- The `getExpensesByCategory` handler as a function of the backend
response. -/
def getExpensesByCategoryRes (resp : Except SbError (List ExpenseByCategoryRow)) :
    QueryResult (List ExpenseByCategorySummary) :=
  match resp with
  | Except.error e => Except.error { status := 500, data := e.message }
  | Except.ok rows => Except.ok (rows.map mapExpenseByCategoryRow)

/-- `getExpensesByCategory` against a healthy backend serving `db`. -/
def getExpensesByCategory (db : DB) : QueryResult (List ExpenseByCategorySummary) :=
  getExpensesByCategoryRes (Except.ok (expenseByCategoryQuery db))

/-! ### The insert path of `createProduct` -/

/-- The CHECK constraints of the `products` table in the migration:
`price >= 0`, `rating >= 0 AND rating <= 5` (null allowed),
`stock_quantity >= 0`. -/
def productChecks (np : NewProduct) : Bool :=
  decide (0 ≤ np.price) &&
    (match np.rating with
     | none => true
     | some q => decide (0 ≤ q) && decide (q ≤ 5)) &&
    decide (0 ≤ np.stockQuantity)

/-- The backend insert issued by `createProduct`: the row
`{ name, price, rating, stock_quantity }` with a storage-generated id
`gen`.  Postgres accepts it exactly when the CHECK constraints hold;
otherwise nothing is stored and an error is returned. -/
def insertProduct (db : DB) (gen : String) (np : NewProduct) :
    Except SbError (DB × ProductRow) :=
  if productChecks np then
    let row : ProductRow :=
      { product_id := gen
        name := np.name
        price := np.price
        rating := np.rating
        stock_quantity := np.stockQuantity }
    Except.ok ({ db with products := db.products ++ [row] }, row)
  else
    Except.error { message := "new row for relation products violates check constraint" }

/-- The `createProduct` handler as a function of the backend response to
the insert (`.select().single()` returns the created row). -/
def createProductRes (resp : Except SbError ProductRow) : QueryResult Product :=
  match resp with
  | Except.error e => Except.error { status := 500, data := e.message }
  | Except.ok row => Except.ok (mapProductRow row)

/-- `createProduct` end to end: the handler outcome together with the
store after the call. -/
def createProduct (db : DB) (gen : String) (np : NewProduct) :
    QueryResult Product × DB :=
  match insertProduct db gen np with
  | Except.error e => (createProductRes (Except.error e), db)
  | Except.ok (db2, row) => (createProductRes (Except.ok row), db2)

/-! ### Spec-side predicates

These definitions follow the wording of the specification and are compared
with the behaviour of the handlers (refinement-style claims). -/

/-- Is `n` the first part of `h`? -/
def isSubAt : List Char → List Char → Bool
  | [], _ => true
  | _ :: _, [] => false
  | c :: n, d :: h => c == d && isSubAt n h

/-- Does `n` occur contiguously inside `h`? -/
def hasSub (n : List Char) : List Char → Bool
  | [] => isSubAt n []
  | d :: h => isSubAt n (d :: h) || hasSub n h

/-- The claim wording "name contains s as a case-insensitive substring". -/
def specContainsCI (s name : String) : Bool :=
  hasSub (lowerChars s) (lowerChars name)

/-- Does the string avoid the LIKE metacharacters percent, underscore and
backslash? -/
def noWild (l : List Char) : Bool :=
  l.all fun c => !(c == '%' || c == '_' || c == '\\')

/-- The claim wording "the equivalent camelCase field name": drop each
underscore and capitalize the letter following it. -/
def camelChars : List Char → List Char
  | [] => []
  | '_' :: c :: rest => c.toUpper :: camelChars rest
  | '_' :: [] => []
  | c :: rest => c :: camelChars rest

/-- snake_case to camelCase on strings. -/
def specCamelCase (s : String) : String :=
  String.mk (camelChars s.data)

/-! ### The handler output as a keyed record (for the naming round-trip)

JavaScript objects are finite key-value maps; the object literals returned
by the handlers are embedded as association lists so that statements about
field names can be made. -/

/-- A JavaScript value as it appears in a handler payload. -/
inductive JsValue where
  | str : String → JsValue
  | num : Rat → JsValue
  | undef : JsValue
deriving DecidableEq

/-- An optional numeric field: absent means undefined. -/
def optNum : Option Rat → JsValue
  | none => JsValue.undef
  | some q => JsValue.num q

/-- The keys and values of a returned product object. -/
def productFields (p : Product) : List (String × JsValue) :=
  [("productId", JsValue.str p.productId),
   ("name", JsValue.str p.name),
   ("price", JsValue.num p.price),
   ("rating", optNum p.rating),
   ("stockQuantity", JsValue.num p.stockQuantity)]

/-- The keys and values of a returned sales-summary object. -/
def salesSummaryFields (s : SalesSummary) : List (String × JsValue) :=
  [("salesSummaryId", JsValue.str s.salesSummaryId),
   ("totalValue", JsValue.num s.totalValue),
   ("changePercentage", optNum s.changePercentage),
   ("date", JsValue.str s.date)]

/-- The keys and values of a returned purchase-summary object. -/
def purchaseSummaryFields (p : PurchaseSummary) : List (String × JsValue) :=
  [("purchaseSummaryId", JsValue.str p.purchaseSummaryId),
   ("totalPurchased", JsValue.num p.totalPurchased),
   ("changePercentage", optNum p.changePercentage),
   ("date", JsValue.str p.date)]

/-- The keys and values of a returned expense-summary object (the id key
is the literal `expenseSummarId` of the source). -/
def expenseSummaryFields (e : ExpenseSummary) : List (String × JsValue) :=
  [("expenseSummarId", JsValue.str e.expenseSummarId),
   ("totalExpenses", JsValue.num e.totalExpenses),
   ("date", JsValue.str e.date)]

/-- The keys and values of a returned expense-by-category object. -/
def expenseByCategorySummaryFields (e : ExpenseByCategorySummary) :
    List (String × JsValue) :=
  [("expenseByCategorySummaryId", JsValue.str e.expenseByCategorySummaryId),
   ("category", JsValue.str e.category),
   ("amount", JsValue.str e.amount),
   ("date", JsValue.str e.date)]

/-- The keys and values of a returned user object. -/
def userFields (u : User) : List (String × JsValue) :=
  [("userId", JsValue.str u.userId),
   ("name", JsValue.str u.name),
   ("email", JsValue.str u.email)]

/-! ### Loose rows (the `any`-typed rows the mapping functions receive)

The arrow functions in `api.ts` take `p: any` and read fields without any
presence check; a missing field reads as undefined.  To examine this we
embed rows in which every field may be absent, together with the mapping
functions acting on them.  Reading a field of such a row never throws;
the only member access on a field value is `e.amount.toString()` in the
expense-by-category mapping, which throws a TypeError when the amount is
missing. -/

/-- A loose `products` row: every field may be absent. -/
structure ProductRowAny where
  product_id : Option String
  name : Option String
  price : Option Rat
  rating : Option Rat
  stock_quantity : Option Int
deriving DecidableEq

/-- The product view model as actually produced from a loose row: each
field holds whatever the row held, possibly undefined. -/
structure ProductAny where
  productId : Option String
  name : Option String
  price : Option Rat
  rating : Option Rat
  stockQuantity : Option Int
deriving DecidableEq

/-- The product arrow function on a loose row: plain field renaming, no
validation, never throws. -/
def mapProductRowAny (p : ProductRowAny) : ProductAny :=
  { productId := p.product_id
    name := p.name
    price := p.price
    rating := p.rating
    stockQuantity := p.stock_quantity }

/-- `getProducts` body on loose rows: `data.map(...)` cannot throw, so the
handler always returns a success payload. -/
def getProductsAny (rows : List ProductRowAny) : QueryResult (List ProductAny) :=
  Except.ok (rows.map mapProductRowAny)

/-- A loose `expense_by_category` row. -/
structure ExpenseByCategoryRowAny where
  expense_by_category_id : Option String
  category : Option String
  amount : Option Rat
  date : Option String
deriving DecidableEq

/-- The expense-by-category view model produced from a loose row: the
amount is a string (the mapping calls toString on it), the other fields
pass through loosely. -/
structure ExpenseByCategorySummaryAny where
  expenseByCategorySummaryId : Option String
  category : Option String
  amount : String
  date : Option String
deriving DecidableEq

/-- The TypeError message thrown by `undefined.toString()`. -/
def undefToStringMsg : String :=
  "Cannot read properties of undefined"

/-- `e.amount.toString()`: throws when the amount is missing. -/
def jsToStringField : Option Rat → Except SbError String
  | none => Except.error { message := undefToStringMsg }
  | some q => Except.ok (jsNumToString q)

/-- The expense-by-category arrow function on a loose row. -/
def mapExpenseByCategoryRowAny (e : ExpenseByCategoryRowAny) :
    Except SbError ExpenseByCategorySummaryAny :=
  (jsToStringField e.amount).map fun a =>
    { expenseByCategorySummaryId := e.expense_by_category_id
      category := e.category
      amount := a
      date := e.date }

/-- `getExpensesByCategory` body on loose rows: `data.map(...)` evaluates
the arrow function left to right and the first throw is caught by the
handler, which returns the envelope. -/
def getExpensesByCategoryAny (rows : List ExpenseByCategoryRowAny) :
    QueryResult (List ExpenseByCategorySummaryAny) :=
  match rows.mapM mapExpenseByCategoryRowAny with
  | Except.error e => Except.error { status := 500, data := e.message }
  | Except.ok vms => Except.ok vms

/-! ### The order in which `getDashboardMetrics` surfaces errors -/

/-- The first error among the five responses, in the order the handler
checks them (products, sales, purchases, expense summary, expense by
category). -/
def firstErrFive
    (r1 : Except SbError (List ProductRow))
    (r2 : Except SbError (List SalesSummaryRow))
    (r3 : Except SbError (List PurchaseSummaryRow))
    (r4 : Except SbError (List ExpenseSummaryRow))
    (r5 : Except SbError (List ExpenseByCategoryRow)) : Option SbError :=
  match r1 with
  | Except.error e => some e
  | Except.ok _ =>
    match r2 with
    | Except.error e => some e
    | Except.ok _ =>
      match r3 with
      | Except.error e => some e
      | Except.ok _ =>
        match r4 with
        | Except.error e => some e
        | Except.ok _ =>
          match r5 with
          | Except.error e => some e
          | Except.ok _ => none

/-! ### Concrete stores used by the examples -/

/-- The empty store. -/
def dbE : DB :=
  { products := []
    users := []
    sales_summary := []
    purchase_summary := []
    expense_summary := []
    expense_by_category := [] }

/-- A store whose products carry the stock quantities
[100, 500, 75, 200, 50, 150, 120, 80] (the eight quantities of the claim,
deliberately not in sorted order). -/
def dbStocks : DB :=
  { dbE with products :=
      [{ product_id := "p1", name := "USB Cable", price := 10, rating := none, stock_quantity := 100 },
       { product_id := "p2", name := "Laptop", price := 1000, rating := none, stock_quantity := 500 },
       { product_id := "p3", name := "Monitor", price := 300, rating := none, stock_quantity := 75 },
       { product_id := "p4", name := "Wireless Mouse", price := 30, rating := none, stock_quantity := 200 },
       { product_id := "p5", name := "Headphones", price := 150, rating := none, stock_quantity := 50 },
       { product_id := "p6", name := "Keyboard", price := 80, rating := none, stock_quantity := 150 },
       { product_id := "p7", name := "Desk Lamp", price := 40, rating := none, stock_quantity := 120 },
       { product_id := "p8", name := "Webcam", price := 90, rating := none, stock_quantity := 80 }] }

/-- A store with one row in each summary table. -/
def dbNaming : DB :=
  { dbE with
    expense_summary := [{ expense_summary_id := "es1", total_expenses := 7, date := "2025-01-01" }]
    expense_by_category := [{ expense_by_category_id := "ec1", category := "Office Supplies", amount := 500, date := "2025-01-01" }] }

/-! ### Lemmas about lowercasing -/

theorem charOfNat_toNat_small (n : Nat) (h : n < 55296) : (Char.ofNat n).toNat = n := by
  have hv : Nat.isValidChar n := Or.inl h
  simp [Char.ofNat, hv, Char.ofNatAux, Char.toNat, UInt32.ofNat', UInt32.toNat]

/-- Lowercasing only produces characters with code point at least 97 or
leaves the character unchanged, hence never produces a character below
code point 97 that was not there already. -/
theorem toLower_ne_low (c x : Char) (hx : x.toNat < 97) (h : c ≠ x) :
    Char.toLower c ≠ x := by
  intro hc
  rw [Char.toLower] at hc
  split at hc
  · rename_i hcond
    have h1 : (Char.ofNat (c.toNat + 32)).toNat = c.toNat + 32 :=
      charOfNat_toNat_small _ (by omega)
    rw [hc] at h1
    omega
  · exact h hc

theorem noWild_iff (l : List Char) :
    noWild l = true ↔ ∀ c ∈ l, c ≠ '%' ∧ c ≠ '_' ∧ c ≠ '\\' := by
  simp [noWild, List.all_eq_true, not_or, and_assoc]

theorem noWild_toLower (l : List Char) (h : noWild l = true) :
    noWild (l.map Char.toLower) = true := by
  rw [noWild_iff] at h ⊢
  intro c hc
  rw [List.mem_map] at hc
  obtain ⟨d, hd, rfl⟩ := hc
  obtain ⟨h1, h2, h3⟩ := h d hd
  exact ⟨toLower_ne_low d '%' (by decide) h1,
         toLower_ne_low d '_' (by decide) h2,
         toLower_ne_low d '\\' (by decide) h3⟩

/-! ### Lemmas about the spec-side substring predicate -/

theorem isSubAt_iff (n h : List Char) : isSubAt n h = true ↔ ∃ t, h = n ++ t := by
  induction n generalizing h with
  | nil => simp [isSubAt]
  | cons c n ih =>
    cases h with
    | nil => simp [isSubAt]
    | cons d h2 =>
      simp only [isSubAt, Bool.and_eq_true, beq_iff_eq, ih, List.cons_append]
      constructor
      · rintro ⟨rfl, t, rfl⟩
        exact ⟨t, rfl⟩
      · rintro ⟨t, ht⟩
        obtain ⟨rfl, rfl⟩ := List.cons_eq_cons.mp ht
        exact ⟨rfl, t, rfl⟩

theorem hasSub_iff (n h : List Char) : hasSub n h = true ↔ ∃ u v, h = u ++ n ++ v := by
  induction h with
  | nil =>
    show isSubAt n [] = true ↔ _
    rw [isSubAt_iff]
    constructor
    · rintro ⟨t, ht⟩
      exact ⟨[], t, by simpa using ht⟩
    · rintro ⟨u, v, huv⟩
      obtain ⟨hun, hv⟩ := List.append_eq_nil.mp huv.symm
      obtain ⟨hu, hn⟩ := List.append_eq_nil.mp hun
      exact ⟨[], by simp [hn]⟩
  | cons d h2 ih =>
    show (isSubAt n (d :: h2) || hasSub n h2) = true ↔ _
    rw [Bool.or_eq_true, isSubAt_iff, ih]
    constructor
    · rintro (⟨t, ht⟩ | ⟨u, v, huv⟩)
      · exact ⟨[], t, by simpa using ht⟩
      · exact ⟨d :: u, v, by simp [huv]⟩
    · rintro ⟨u, v, huv⟩
      cases u with
      | nil => exact Or.inl ⟨v, by simpa using huv⟩
      | cons e u2 =>
        rw [List.cons_append, List.cons_append] at huv
        obtain ⟨rfl, h2eq⟩ := List.cons_eq_cons.mp huv
        exact Or.inr ⟨u2, v, by simpa using h2eq⟩

/-- The empty string occurs in every string. -/
theorem hasSub_nil (h : List Char) : hasSub [] h = true := by
  induction h with
  | nil => rfl
  | cons d h2 ih => simp [hasSub, isSubAt]

/-! ### Lemmas about LIKE matching -/

theorem tokMatches_nil_iff (s : List Char) : tokMatches [] s = true ↔ s = [] := by
  simp [tokMatches, List.isEmpty_iff]

theorem tokMatches_any_iff (ps : List LikeTok) (s : List Char) :
    tokMatches (LikeTok.any :: ps) s = true ↔
      ∃ u v, s = u ++ v ∧ tokMatches ps v = true := by
  show (s.tails.any fun t => tokMatches ps t) = true ↔ _
  rw [List.any_eq_true]
  constructor
  · rintro ⟨t, htails, hm⟩
    obtain ⟨u, hu⟩ := (List.mem_tails t s).mp htails
    exact ⟨u, t, hu.symm, hm⟩
  · rintro ⟨u, v, rfl, hm⟩
    exact ⟨v, (List.mem_tails v (u ++ v)).mpr ⟨u, rfl⟩, hm⟩

theorem tokMatches_single_any (s : List Char) : tokMatches [LikeTok.any] s = true := by
  rw [tokMatches_any_iff]
  exact ⟨s, [], by simp, by simp [tokMatches]⟩

theorem tokMatches_litsAny_iff (l s : List Char) :
    tokMatches (l.map LikeTok.lit ++ [LikeTok.any]) s = true ↔ ∃ t, s = l ++ t := by
  induction l generalizing s with
  | nil => simp [tokMatches_single_any]
  | cons c l ih =>
    cases s with
    | nil => simp [tokMatches]
    | cons d s2 =>
      rw [List.map_cons, List.cons_append]
      show (c == d && tokMatches (l.map LikeTok.lit ++ [LikeTok.any]) s2) = true ↔ _
      rw [Bool.and_eq_true, beq_iff_eq, ih]
      constructor
      · rintro ⟨rfl, t, rfl⟩
        exact ⟨t, rfl⟩
      · rintro ⟨t, ht⟩
        obtain ⟨h2, h3⟩ := List.cons_eq_cons.mp ht
        subst h2
        subst h3
        exact ⟨rfl, t, rfl⟩

theorem tokMatches_wrap_iff (l s : List Char) :
    tokMatches (LikeTok.any :: (l.map LikeTok.lit ++ [LikeTok.any])) s = true ↔
      hasSub l s = true := by
  rw [tokMatches_any_iff, hasSub_iff]
  constructor
  · rintro ⟨u, v, rfl, hm⟩
    obtain ⟨t, rfl⟩ := (tokMatches_litsAny_iff l v).mp hm
    exact ⟨u, t, by simp⟩
  · rintro ⟨u, t, rfl⟩
    exact ⟨u, l ++ t, by simp, (tokMatches_litsAny_iff l (l ++ t)).mpr ⟨t, rfl⟩⟩

theorem bool_eq_of_iff {a b : Bool} (h : a = true ↔ b = true) : a = b := by
  cases a <;> cases b <;> simp_all

/-! ### Lemmas about compiling the handler pattern -/

theorem noWild_cons (c : Char) (l : List Char) :
    noWild (c :: l) = true ↔ (c ≠ '%' ∧ c ≠ '_' ∧ c ≠ '\\') ∧ noWild l = true := by
  rw [noWild_iff, noWild_iff]
  constructor
  · intro h
    exact ⟨h c (by simp), fun d hd => h d (by simp [hd])⟩
  · rintro ⟨hc, hl⟩ d hd
    rcases List.mem_cons.mp hd with h1 | h2
    · exact h1 ▸ hc
    · exact hl d h2

theorem compileLike_cons (c : Char) (ps : List Char) :
    compileLike (c :: ps) =
      if c = '%' then LikeTok.any :: compileLike ps
      else if c = '_' then LikeTok.one :: compileLike ps
      else if c = '\\' then
        match ps with
        | [] => [LikeTok.lit '\\']
        | d :: ps2 => LikeTok.lit d :: compileLike ps2
      else LikeTok.lit c :: compileLike ps := by
  rw [compileLike.eq_def]

theorem compileLike_noWild_append (l : List Char) (h : noWild l = true) :
    compileLike (l ++ ['%']) = l.map LikeTok.lit ++ [LikeTok.any] := by
  induction l with
  | nil => rfl
  | cons c l ih =>
    obtain ⟨⟨h1, h2, h3⟩, h4⟩ := (noWild_cons c l).mp h
    rw [List.cons_append, List.map_cons, List.cons_append]
    rw [compileLike_cons, if_neg h1, if_neg h2, if_neg h3, ih h4]

theorem compileLike_wrap (l : List Char) (h : noWild l = true) :
    compileLike ('%' :: l ++ ['%']) =
      LikeTok.any :: (l.map LikeTok.lit ++ [LikeTok.any]) := by
  show compileLike ('%' :: (l ++ ['%'])) = _
  rw [compileLike_cons, if_pos rfl, compileLike_noWild_append l h]

/-- For a search string free of LIKE metacharacters, the interpolated
pattern used by `getProducts` matches a name exactly when the search string
occurs in the name case-insensitively. -/
theorem ilike_substring (s name : String) (h : noWild s.data = true) :
    ilike ("%" ++ s ++ "%") name = specContainsCI s name := by
  have hdata : ("%" ++ s ++ "%").data = '%' :: s.data ++ ['%'] := by
    rw [String.data_append, String.data_append]
    rfl
  apply bool_eq_of_iff
  show tokMatches (compileLike (lowerChars ("%" ++ s ++ "%"))) (lowerChars name) = true ↔ _
  rw [show lowerChars ("%" ++ s ++ "%") = '%' :: s.data.map Char.toLower ++ ['%'] by
    rw [lowerChars, hdata]
    simp]
  rw [compileLike_wrap _ (noWild_toLower _ h), tokMatches_wrap_iff]
  rfl

theorem tokMatches_threeAny (t : List Char) :
    tokMatches [LikeTok.any, LikeTok.any, LikeTok.any] t = true := by
  rw [tokMatches_any_iff]
  refine ⟨[], t, by simp, ?_⟩
  rw [tokMatches_any_iff]
  exact ⟨[], t, by simp, tokMatches_single_any t⟩

theorem tokMatches_anyOneAny (t : List Char) :
    tokMatches [LikeTok.any, LikeTok.one, LikeTok.any] t = (!t.isEmpty) := by
  cases t with
  | nil => rfl
  | cons c t2 =>
    simp only [List.isEmpty_cons, Bool.not_false]
    rw [tokMatches_any_iff]
    refine ⟨[], c :: t2, by simp, ?_⟩
    exact tokMatches_single_any t2

/-- The empty search string matches every name. -/
theorem specContainsCI_empty (x : String) : specContainsCI "" x = true :=
  hasSub_nil (lowerChars x)

/-- The products read with a metacharacter-free search is a plain
case-insensitive substring filter. -/
theorem productsQuery_noWild (db : DB) (s : String) (hs : noWild s.data = true) :
    productsQuery db (some s) = db.products.filter fun r => specContainsCI s r.name := by
  by_cases he : s = ""
  · subst he
    show db.products = _
    rw [List.filter_congr fun r _ => specContainsCI_empty r.name, List.filter_true]
  · show (if s = "" then db.products else _) = _
    rw [if_neg he]
    exact List.filter_congr fun r _ => ilike_substring s r.name hs

/-! ## Claims -/

/-- Claim C1 (amended): for every search string free of the LIKE
metacharacters percent, underscore and backslash, `getProducts` returns
exactly the products whose name contains the search string as a
case-insensitive substring; called with no argument it returns all
products in the table.  (As stated over all search strings the claim
fails, because the interpolated pattern keeps wildcard semantics; see the
counterexample.) -/
theorem getProducts_search_semantics :
    (∀ (db : DB) (s : String), noWild s.data = true →
        getProducts db (some s) =
          Except.ok ((db.products.filter fun r => specContainsCI s r.name).map mapProductRow))
  ∧ (∀ db : DB, getProducts db none = Except.ok (db.products.map mapProductRow)) := by
  constructor
  · intro db s hs
    show Except.ok ((productsQuery db (some s)).map mapProductRow) = _
    rw [productsQuery_noWild db s hs]
  · intro db
    rfl

/-- Claim C1 fails as stated: searching for the underscore string returns
the product named "ab" even though "ab" does not contain an underscore,
because the unescaped underscore acts as a single-character wildcard. -/
theorem getProducts_search_cex :
    getProducts
        { dbE with products :=
            [{ product_id := "p1", name := "ab", price := 1, rating := none, stock_quantity := 1 }] }
        (some "_")
      = Except.ok [{ productId := "p1", name := "ab", price := 1, rating := none, stockQuantity := 1 }]
  ∧ specContainsCI "_" "ab" = false := by
  constructor
  · rfl
  · rfl

/-- Witness for C1: the metacharacter-free search "en" keeps exactly the
product whose name contains it case-insensitively. -/
theorem getProducts_search_witness :
    noWild ("en".data) = true
  ∧ getProducts
        { dbE with products :=
            [{ product_id := "p1", name := "Pen", price := 1, rating := none, stock_quantity := 1 },
             { product_id := "p2", name := "Keyboard", price := 2, rating := none, stock_quantity := 2 }] }
        (some "en")
      = Except.ok [{ productId := "p1", name := "Pen", price := 1, rating := none, stockQuantity := 1 }] := by
  refine ⟨by decide, ?_⟩
  rw [getProducts_search_semantics.1 _ "en" (by decide)]
  rfl

/-- Claim C2: if any of the five dashboard sub-fetches fails, the whole
call fails with the first error in the handler's check order, and no
composite object (in particular no partial one) is returned; the first
error is `none` exactly when all five responses are successes. -/
theorem dashboard_all_or_nothing :
    (∀ r1 r2 r3 r4 r5 e, firstErrFive r1 r2 r3 r4 r5 = some e →
        getDashboardMetrics r1 r2 r3 r4 r5 = Except.error { status := 500, data := e.message }
      ∧ ∀ d, getDashboardMetrics r1 r2 r3 r4 r5 ≠ Except.ok d)
  ∧ (∀ r1 r2 r3 r4 r5, firstErrFive r1 r2 r3 r4 r5 = none ↔
      (∃ a, r1 = Except.ok a) ∧ (∃ b, r2 = Except.ok b) ∧ (∃ c, r3 = Except.ok c)
        ∧ (∃ d, r4 = Except.ok d) ∧ (∃ f, r5 = Except.ok f)) := by
  constructor
  · intro r1 r2 r3 r4 r5 e h
    cases r1 <;> cases r2 <;> cases r3 <;> cases r4 <;> cases r5 <;>
      simp_all [firstErrFive, getDashboardMetrics]
  · intro r1 r2 r3 r4 r5
    cases r1 <;> cases r2 <;> cases r3 <;> cases r4 <;> cases r5 <;>
      simp_all [firstErrFive]

/-- Witness for C2: a failing products sub-fetch makes the whole call fail
with that error. -/
theorem dashboard_all_or_nothing_witness :
    getDashboardMetrics (Except.error { message := "boom" })
        (Except.ok []) (Except.ok []) (Except.ok []) (Except.ok [])
      = Except.error { status := 500, data := "boom" } :=
  (dashboard_all_or_nothing.1 (Except.error { message := "boom" })
    (Except.ok []) (Except.ok []) (Except.ok []) (Except.ok [])
    { message := "boom" } rfl).1

/-- Claim C4: every handler, on every backend failure, returns the uniform
error envelope whose status is always 500 and whose message text is the
backend error message verbatim (the source stores it in the `data` field
of the envelope). -/
theorem uniform_error_envelope :
    (∀ e, getProductsRes (Except.error e) = Except.error { status := 500, data := e.message })
  ∧ (∀ e, getUsersRes (Except.error e) = Except.error { status := 500, data := e.message })
  ∧ (∀ e, getExpensesByCategoryRes (Except.error e) = Except.error { status := 500, data := e.message })
  ∧ (∀ e, createProductRes (Except.error e) = Except.error { status := 500, data := e.message })
  ∧ (∀ e r2 r3 r4 r5, getDashboardMetrics (Except.error e) r2 r3 r4 r5
      = Except.error { status := 500, data := e.message })
  ∧ (∀ a e r3 r4 r5, getDashboardMetrics (Except.ok a) (Except.error e) r3 r4 r5
      = Except.error { status := 500, data := e.message })
  ∧ (∀ a b e r4 r5, getDashboardMetrics (Except.ok a) (Except.ok b) (Except.error e) r4 r5
      = Except.error { status := 500, data := e.message })
  ∧ (∀ a b c e r5, getDashboardMetrics (Except.ok a) (Except.ok b) (Except.ok c) (Except.error e) r5
      = Except.error { status := 500, data := e.message })
  ∧ (∀ a b c d e, getDashboardMetrics (Except.ok a) (Except.ok b) (Except.ok c) (Except.ok d) (Except.error e)
      = Except.error { status := 500, data := e.message }) :=
  ⟨fun _ => rfl, fun _ => rfl, fun _ => rfl, fun _ => rfl,
   fun _ _ _ _ _ => rfl, fun _ _ _ _ _ => rfl, fun _ _ _ _ _ => rfl,
   fun _ _ _ _ _ => rfl, fun _ _ _ _ _ => rfl⟩

/-- Claim C9: the empty search string is falsy in JavaScript, so
`getProducts` applies no filter and returns the same result as a call with
no argument. -/
theorem getProducts_empty_falsy (db : DB) :
    getProducts db (some "") = getProducts db none := rfl

/-- Claim C3: on success the dashboard aggregate contains at most five
products, ordered by stock quantity descending (for the stock quantities
[500, 200, 150, 120, 100, 80, 75, 50] the popular products carry stocks
[500, 200, 150, 120, 100]), the three summary lists ordered by date
ascending, and the expense-by-category rows ordered by amount
descending. -/
theorem dashboard_success_shape :
    (∀ db : DB, getDashboardMetricsOk db = Except.ok (dashboardData db))
  ∧ (∀ db : DB, (dashboardData db).popularProducts.length ≤ 5)
  ∧ (∀ db : DB, (dashboardData db).popularProducts.Pairwise fun a b =>
      b.stockQuantity ≤ a.stockQuantity)
  ∧ (∀ db : DB, ∃ rows : List ProductRow, rows.Perm db.products
      ∧ (rows.Pairwise fun a b => b.stock_quantity ≤ a.stock_quantity)
      ∧ (dashboardData db).popularProducts = (rows.take 5).map mapProductRow)
  ∧ (∀ db : DB, ∃ rows : List SalesSummaryRow, rows.Perm db.sales_summary
      ∧ (rows.Pairwise fun a b => a.date ≤ b.date)
      ∧ (dashboardData db).salesSummary = rows.map mapSalesSummaryRow)
  ∧ (∀ db : DB, ∃ rows : List PurchaseSummaryRow, rows.Perm db.purchase_summary
      ∧ (rows.Pairwise fun a b => a.date ≤ b.date)
      ∧ (dashboardData db).purchaseSummary = rows.map mapPurchaseSummaryRow)
  ∧ (∀ db : DB, ∃ rows : List ExpenseSummaryRow, rows.Perm db.expense_summary
      ∧ (rows.Pairwise fun a b => a.date ≤ b.date)
      ∧ (dashboardData db).expenseSummary = rows.map mapExpenseSummaryRow)
  ∧ (∀ db : DB, ∃ rows : List ExpenseByCategoryRow, rows.Perm db.expense_by_category
      ∧ (rows.Pairwise fun a b => b.amount ≤ a.amount)
      ∧ (dashboardData db).expenseByCategorySummary = rows.map mapExpenseByCategoryRow)
  ∧ (dashboardData dbStocks).popularProducts.map Product.stockQuantity
      = [500, 200, 150, 120, 100] := by
  refine ⟨fun db => rfl, ?_, ?_, ?_, ?_, ?_, ?_, ?_, ?_⟩
  · intro db
    show (((List.insertionSort (byKeyDesc ProductRow.stock_quantity) db.products).take 5).map
      mapProductRow).length ≤ 5
    rw [List.length_map]
    exact List.length_take_le 5 _
  · intro db
    have hs : List.Pairwise (byKeyDesc ProductRow.stock_quantity)
        (List.insertionSort (byKeyDesc ProductRow.stock_quantity) db.products) :=
      List.sorted_insertionSort _ _
    have ht : List.Pairwise (byKeyDesc ProductRow.stock_quantity)
        ((List.insertionSort (byKeyDesc ProductRow.stock_quantity) db.products).take 5) :=
      List.Pairwise.sublist (List.take_sublist 5 _) hs
    show List.Pairwise _ (((List.insertionSort (byKeyDesc ProductRow.stock_quantity) db.products).take 5).map
      mapProductRow)
    rw [List.pairwise_map]
    exact ht
  · intro db
    exact ⟨List.insertionSort (byKeyDesc ProductRow.stock_quantity) db.products,
      List.perm_insertionSort _ _,
      List.sorted_insertionSort (byKeyDesc ProductRow.stock_quantity) db.products, rfl⟩
  · intro db
    exact ⟨List.insertionSort (byKeyAsc SalesSummaryRow.date) db.sales_summary,
      List.perm_insertionSort _ _,
      List.sorted_insertionSort (byKeyAsc SalesSummaryRow.date) db.sales_summary, rfl⟩
  · intro db
    exact ⟨List.insertionSort (byKeyAsc PurchaseSummaryRow.date) db.purchase_summary,
      List.perm_insertionSort _ _,
      List.sorted_insertionSort (byKeyAsc PurchaseSummaryRow.date) db.purchase_summary, rfl⟩
  · intro db
    exact ⟨List.insertionSort (byKeyAsc ExpenseSummaryRow.date) db.expense_summary,
      List.perm_insertionSort _ _,
      List.sorted_insertionSort (byKeyAsc ExpenseSummaryRow.date) db.expense_summary, rfl⟩
  · intro db
    exact ⟨List.insertionSort (byKeyDesc ExpenseByCategoryRow.amount) db.expense_by_category,
      List.perm_insertionSort _ _,
      List.sorted_insertionSort (byKeyDesc ExpenseByCategoryRow.amount) db.expense_by_category, rfl⟩
  · rfl

/-- Claim C6: `getExpensesByCategory` returns the stored rows sorted
descending by amount, and every returned amount is the text rendering of
the stored numeric amount. -/
theorem expensesByCategory_sorted_text :
    (∀ db : DB, ∃ rows : List ExpenseByCategoryRow, rows.Perm db.expense_by_category
      ∧ (rows.Pairwise fun a b => b.amount ≤ a.amount)
      ∧ getExpensesByCategory db = Except.ok (rows.map mapExpenseByCategoryRow))
  ∧ (∀ r : ExpenseByCategoryRow, (mapExpenseByCategoryRow r).amount = jsNumToString r.amount) := by
  constructor
  · intro db
    exact ⟨List.insertionSort (byKeyDesc ExpenseByCategoryRow.amount) db.expense_by_category,
      List.perm_insertionSort _ _,
      List.sorted_insertionSort (byKeyDesc ExpenseByCategoryRow.amount) db.expense_by_category, rfl⟩
  · intro r
    rfl

/-- Claim C5 fails as stated: the stored column `expense_summary_id` is
returned under the key `expenseSummarId`, not under its camelCase
equivalent `expenseSummaryId`, which is absent from the returned record;
likewise `expense_by_category_id` is returned under
`expenseByCategorySummaryId` rather than `expenseByCategoryId`, and the
stored numeric amount 500 does not appear as a numeric value (only its
text rendering does). -/
theorem naming_roundtrip_cex :
    specCamelCase "expense_summary_id" = "expenseSummaryId"
  ∧ (dashboardData dbNaming).expenseSummary
      = [{ expenseSummarId := "es1", totalExpenses := 7, date := "2025-01-01" }]
  ∧ "expenseSummaryId" ∉
      (expenseSummaryFields
        { expenseSummarId := "es1", totalExpenses := 7, date := "2025-01-01" }).map Prod.fst
  ∧ specCamelCase "expense_by_category_id" = "expenseByCategoryId"
  ∧ getExpensesByCategory dbNaming
      = Except.ok [mapExpenseByCategoryRow
          { expense_by_category_id := "ec1", category := "Office Supplies", amount := 500, date := "2025-01-01" }]
  ∧ "expenseByCategoryId" ∉
      (expenseByCategorySummaryFields (mapExpenseByCategoryRow
        { expense_by_category_id := "ec1", category := "Office Supplies", amount := 500, date := "2025-01-01" })).map Prod.fst
  ∧ ("amount", JsValue.num 500) ∉
      expenseByCategorySummaryFields (mapExpenseByCategoryRow
        { expense_by_category_id := "ec1", category := "Office Supplies", amount := 500, date := "2025-01-01" }) := by
  refine ⟨rfl, rfl, ?_, rfl, rfl, ?_, ?_⟩
  · decide
  · decide
  · decide

/-- Claim C5 (amended): every stored field of every table is returned by
the read handlers under its equivalent camelCase key with the identical
value, except that the id of `expense_summary` is returned under the
misspelled key `expenseSummarId`, the id of `expense_by_category` is
returned under the key `expenseByCategorySummaryId`, and the numeric
`amount` is returned as its text rendering. -/
theorem naming_roundtrip_amended :
    (∀ r : ProductRow,
        (specCamelCase "product_id", JsValue.str r.product_id) ∈ productFields (mapProductRow r)
      ∧ (specCamelCase "name", JsValue.str r.name) ∈ productFields (mapProductRow r)
      ∧ (specCamelCase "price", JsValue.num r.price) ∈ productFields (mapProductRow r)
      ∧ (specCamelCase "rating", optNum r.rating) ∈ productFields (mapProductRow r)
      ∧ (specCamelCase "stock_quantity", JsValue.num r.stock_quantity) ∈ productFields (mapProductRow r))
  ∧ (∀ u : UserRow,
        (specCamelCase "user_id", JsValue.str u.user_id) ∈ userFields (mapUserRow u)
      ∧ (specCamelCase "name", JsValue.str u.name) ∈ userFields (mapUserRow u)
      ∧ (specCamelCase "email", JsValue.str u.email) ∈ userFields (mapUserRow u))
  ∧ (∀ s : SalesSummaryRow,
        (specCamelCase "sales_summary_id", JsValue.str s.sales_summary_id) ∈ salesSummaryFields (mapSalesSummaryRow s)
      ∧ (specCamelCase "total_value", JsValue.num s.total_value) ∈ salesSummaryFields (mapSalesSummaryRow s)
      ∧ (specCamelCase "change_percentage", optNum s.change_percentage) ∈ salesSummaryFields (mapSalesSummaryRow s)
      ∧ (specCamelCase "date", JsValue.str s.date) ∈ salesSummaryFields (mapSalesSummaryRow s))
  ∧ (∀ p : PurchaseSummaryRow,
        (specCamelCase "purchase_summary_id", JsValue.str p.purchase_summary_id) ∈ purchaseSummaryFields (mapPurchaseSummaryRow p)
      ∧ (specCamelCase "total_purchased", JsValue.num p.total_purchased) ∈ purchaseSummaryFields (mapPurchaseSummaryRow p)
      ∧ (specCamelCase "change_percentage", optNum p.change_percentage) ∈ purchaseSummaryFields (mapPurchaseSummaryRow p)
      ∧ (specCamelCase "date", JsValue.str p.date) ∈ purchaseSummaryFields (mapPurchaseSummaryRow p))
  ∧ (∀ e : ExpenseSummaryRow,
        ("expenseSummarId", JsValue.str e.expense_summary_id) ∈ expenseSummaryFields (mapExpenseSummaryRow e)
      ∧ (specCamelCase "total_expenses", JsValue.num e.total_expenses) ∈ expenseSummaryFields (mapExpenseSummaryRow e)
      ∧ (specCamelCase "date", JsValue.str e.date) ∈ expenseSummaryFields (mapExpenseSummaryRow e))
  ∧ (∀ e : ExpenseByCategoryRow,
        ("expenseByCategorySummaryId", JsValue.str e.expense_by_category_id) ∈ expenseByCategorySummaryFields (mapExpenseByCategoryRow e)
      ∧ (specCamelCase "category", JsValue.str e.category) ∈ expenseByCategorySummaryFields (mapExpenseByCategoryRow e)
      ∧ ("amount", JsValue.str (jsNumToString e.amount)) ∈ expenseByCategorySummaryFields (mapExpenseByCategoryRow e)
      ∧ (specCamelCase "date", JsValue.str e.date) ∈ expenseByCategorySummaryFields (mapExpenseByCategoryRow e)) := by
  refine ⟨?_, ?_, ?_, ?_, ?_, ?_⟩
  · intro r
    exact ⟨List.mem_cons_self _ _,
      List.mem_cons_of_mem _ (List.mem_cons_self _ _),
      List.mem_cons_of_mem _ (List.mem_cons_of_mem _ (List.mem_cons_self _ _)),
      List.mem_cons_of_mem _ (List.mem_cons_of_mem _ (List.mem_cons_of_mem _ (List.mem_cons_self _ _))),
      List.mem_cons_of_mem _ (List.mem_cons_of_mem _ (List.mem_cons_of_mem _ (List.mem_cons_of_mem _ (List.mem_cons_self _ _))))⟩
  · intro u
    exact ⟨List.mem_cons_self _ _,
      List.mem_cons_of_mem _ (List.mem_cons_self _ _),
      List.mem_cons_of_mem _ (List.mem_cons_of_mem _ (List.mem_cons_self _ _))⟩
  · intro s
    exact ⟨List.mem_cons_self _ _,
      List.mem_cons_of_mem _ (List.mem_cons_self _ _),
      List.mem_cons_of_mem _ (List.mem_cons_of_mem _ (List.mem_cons_self _ _)),
      List.mem_cons_of_mem _ (List.mem_cons_of_mem _ (List.mem_cons_of_mem _ (List.mem_cons_self _ _)))⟩
  · intro p
    exact ⟨List.mem_cons_self _ _,
      List.mem_cons_of_mem _ (List.mem_cons_self _ _),
      List.mem_cons_of_mem _ (List.mem_cons_of_mem _ (List.mem_cons_self _ _)),
      List.mem_cons_of_mem _ (List.mem_cons_of_mem _ (List.mem_cons_of_mem _ (List.mem_cons_self _ _)))⟩
  · intro e
    exact ⟨List.mem_cons_self _ _,
      List.mem_cons_of_mem _ (List.mem_cons_self _ _),
      List.mem_cons_of_mem _ (List.mem_cons_of_mem _ (List.mem_cons_self _ _))⟩
  · intro e
    exact ⟨List.mem_cons_self _ _,
      List.mem_cons_of_mem _ (List.mem_cons_self _ _),
      List.mem_cons_of_mem _ (List.mem_cons_of_mem _ (List.mem_cons_self _ _)),
      List.mem_cons_of_mem _ (List.mem_cons_of_mem _ (List.mem_cons_of_mem _ (List.mem_cons_self _ _)))⟩

/-- Claim C7: with an input satisfying the storage constraints,
`createProduct` persists one row carrying the generated id and the given
fields, returns it mapped to the view model, and a subsequent
`getProducts` with no argument includes it; with a negative price the
call fails with the 500 envelope and the products table is unchanged. -/
theorem createProduct_roundtrip :
    (∀ (db : DB) (gen : String) (np : NewProduct), productChecks np = true →
      ∃ row : ProductRow,
        createProduct db gen np
          = (Except.ok (mapProductRow row), { db with products := db.products ++ [row] })
      ∧ row.product_id = gen ∧ row.name = np.name ∧ row.price = np.price
      ∧ row.rating = np.rating ∧ row.stock_quantity = np.stockQuantity
      ∧ ∃ l, getProducts { db with products := db.products ++ [row] } none = Except.ok l
          ∧ mapProductRow row ∈ l)
  ∧ (∀ (db : DB) (gen : String) (np : NewProduct), np.price < 0 →
        (createProduct db gen np).1
          = Except.error { status := 500, data := "new row for relation products violates check constraint" }
      ∧ (createProduct db gen np).2 = db) := by
  constructor
  · intro db gen np h
    refine ⟨⟨gen, np.name, np.price, np.rating, np.stockQuantity⟩, ?_, rfl, rfl, rfl, rfl, rfl, ?_⟩
    · simp only [createProduct, insertProduct, if_pos h]
      rfl
    · refine ⟨_, rfl, ?_⟩
      exact List.mem_map_of_mem _ (List.mem_append_right _ (List.mem_singleton_self _))
  · intro db gen np h
    have hd : decide (0 ≤ np.price) = false := decide_eq_false (not_le.mpr h)
    have hc : productChecks np = false := by
      simp [productChecks, hd]
    constructor
    · simp only [createProduct, insertProduct, hc, Bool.false_eq_true, if_false]
      rfl
    · simp only [createProduct, insertProduct, hc, Bool.false_eq_true, if_false]

/-- Witness for C7: creating the Pen product succeeds and is listed by a
subsequent fetch; creating a product with price -1 fails and leaves the
empty store unchanged. -/
theorem createProduct_roundtrip_witness :
    (∃ row : ProductRow,
        createProduct dbE "g1" { name := "Pen", price := 3 / 2, rating := none, stockQuantity := 10 }
          = (Except.ok (mapProductRow row), { dbE with products := dbE.products ++ [row] })
      ∧ row.product_id = "g1"
      ∧ row.name = ({ name := "Pen", price := 3 / 2, rating := none, stockQuantity := 10 } : NewProduct).name
      ∧ row.price = ({ name := "Pen", price := 3 / 2, rating := none, stockQuantity := 10 } : NewProduct).price
      ∧ row.rating = ({ name := "Pen", price := 3 / 2, rating := none, stockQuantity := 10 } : NewProduct).rating
      ∧ row.stock_quantity = ({ name := "Pen", price := 3 / 2, rating := none, stockQuantity := 10 } : NewProduct).stockQuantity
      ∧ ∃ l, getProducts { dbE with products := dbE.products ++ [row] } none = Except.ok l
          ∧ mapProductRow row ∈ l)
  ∧ (createProduct dbE "g2" { name := "Bad", price := -1, rating := none, stockQuantity := 0 }).1
      = Except.error { status := 500, data := "new row for relation products violates check constraint" }
  ∧ (createProduct dbE "g2" { name := "Bad", price := -1, rating := none, stockQuantity := 0 }).2 = dbE := by
  refine ⟨createProduct_roundtrip.1 dbE "g1" _ (by norm_num [productChecks]), ?_, ?_⟩
  · exact (createProduct_roundtrip.2 dbE "g2"
      { name := "Bad", price := -1, rating := none, stockQuantity := 0 } (by decide)).1
  · exact (createProduct_roundtrip.2 dbE "g2"
      { name := "Bad", price := -1, rating := none, stockQuantity := 0 } (by decide)).2

/-- Claim C8 fails as stated: a products row with every required field
missing is not rejected; the handler succeeds and returns a view model in
which every field is the propagated absent value. -/
theorem mapping_missing_fields_cex :
    getProductsAny
        [{ product_id := none, name := none, price := none, rating := none, stock_quantity := none }]
      = Except.ok
        [{ productId := none, name := none, price := none, rating := none, stockQuantity := none }] := rfl

/-- Claim C8 (amended): the row mappings perform no validation.  The
products mapping never makes the handler fail and propagates each field,
present or missing, unchanged into the view model; the only mapping that
can fail is expense-by-category, whose call of toString on a missing
amount throws, making the handler return the 500 envelope. -/
theorem mapping_missing_fields_amended :
    (∀ (rows : List ProductRowAny) (env : ApiError), getProductsAny rows ≠ Except.error env)
  ∧ (∀ p : ProductRowAny,
        (mapProductRowAny p).productId = p.product_id
      ∧ (mapProductRowAny p).name = p.name
      ∧ (mapProductRowAny p).price = p.price
      ∧ (mapProductRowAny p).rating = p.rating
      ∧ (mapProductRowAny p).stockQuantity = p.stock_quantity)
  ∧ (∀ (r : ExpenseByCategoryRowAny) (rows : List ExpenseByCategoryRowAny),
        r.amount = none →
        getExpensesByCategoryAny (r :: rows)
          = Except.error { status := 500, data := undefToStringMsg }) := by
  refine ⟨?_, fun p => ⟨rfl, rfl, rfl, rfl, rfl⟩, ?_⟩
  · intro rows env h
    exact Except.noConfusion h
  · intro r rows h
    have h1 : mapExpenseByCategoryRowAny r = Except.error { message := undefToStringMsg } := by
      rw [mapExpenseByCategoryRowAny, h]
      rfl
    rw [getExpensesByCategoryAny, List.mapM_cons, h1]
    rfl

/-- Witness for C8: a row with a missing amount makes
`getExpensesByCategory` fail with the TypeError message in the 500
envelope. -/
theorem mapping_missing_fields_witness :
    getExpensesByCategoryAny
        [{ expense_by_category_id := some "e1", category := some "Office Supplies",
           amount := none, date := some "2025-01-01" }]
      = Except.error { status := 500, data := undefToStringMsg } :=
  mapping_missing_fields_amended.2.2 _ [] rfl

/-- Claim C10: the search string is interpolated unescaped into the LIKE
pattern, so a percent in the search matches any character sequence (a
search consisting of one percent returns every product) and an underscore
matches any single character (a search consisting of one underscore
returns exactly the products with a nonempty name); the concrete search
"a%b" returns the product named "ab" although "ab" does not contain
"a%b" literally. -/
theorem getProducts_wildcard_semantics :
    (∀ db : DB, getProducts db (some "%") = Except.ok (db.products.map mapProductRow))
  ∧ (∀ db : DB, getProducts db (some "_")
      = Except.ok ((db.products.filter fun r => !(r.name == "")).map mapProductRow))
  ∧ getProducts { dbE with products :=
        [{ product_id := "p1", name := "ab", price := 1, rating := none, stock_quantity := 1 }] }
      (some "a%b")
      = Except.ok [{ productId := "p1", name := "ab", price := 1, rating := none, stockQuantity := 1 }]
  ∧ specContainsCI "a%b" "ab" = false := by
  refine ⟨?_, ?_, rfl, rfl⟩
  · intro db
    show Except.ok ((if ("%" : String) = "" then db.products
        else db.products.filter fun r => ilike ("%" ++ "%" ++ "%") r.name).map mapProductRow) = _
    rw [if_neg (by decide : ¬("%" : String) = "")]
    have hall : ∀ r : ProductRow, r ∈ db.products →
        ilike ("%" ++ "%" ++ "%") r.name = (fun _ : ProductRow => true) r := by
      intro r _
      exact tokMatches_threeAny (lowerChars r.name)
    rw [List.filter_congr hall, List.filter_true]
  · intro db
    show Except.ok ((if ("_" : String) = "" then db.products
        else db.products.filter fun r => ilike ("%" ++ "_" ++ "%") r.name).map mapProductRow) = _
    rw [if_neg (by decide : ¬("_" : String) = "")]
    have hall : ∀ r : ProductRow, r ∈ db.products →
        ilike ("%" ++ "_" ++ "%") r.name = (fun x : ProductRow => !(x.name == "")) r := by
      intro r _
      show tokMatches (compileLike (lowerChars ("%" ++ "_" ++ "%"))) (lowerChars r.name) = _
      rw [show compileLike (lowerChars ("%" ++ "_" ++ "%"))
          = [LikeTok.any, LikeTok.one, LikeTok.any] from rfl]
      rw [tokMatches_anyOneAny]
      congr 1
      apply bool_eq_of_iff
      rw [List.isEmpty_iff, beq_iff_eq]
      constructor
      · intro hh
        have hz : r.name.data = [] := by
          have := List.map_eq_nil_iff.mp hh
          exact this
        exact String.ext (by simp [hz])
      · intro hh
        rw [hh]
        rfl
    rw [List.filter_congr hall]
